import Mathlib

/-!
# Snapshot create-volume permission resource

A shallow embedding of `aws/resource_aws_snapshot_create_volume_permission.go`:
the composite resource ID codec, the state refresh function and the resource
handlers, together with the properties of the specification they carry.

Go strings are embedded as Lean `String`s (valid UTF-8 text); `len(s)` is the
byte length `String.utf8ByteSize`.
-/

namespace SnapshotCreateVolumePermission

/-! ## Go standard library: `strings.Index`, `strings.SplitN`, `fmt.Sprintf` -/

/-- Position of the first occurrence of `sep` in `s`, counted in characters
(`strings.Index`, with `none` for Go's `-1`). -/
def Index : List Char → List Char → Option Nat
  | [], sep => if sep = [] then some 0 else none
  | c :: cs, sep =>
    if sep.isPrefixOf (c :: cs) then some 0
    else (Index cs sep).map (· + 1)

/-- The loop of `strings.genSplit` with `sepSave = 0`: at most `k` cuts at
successive occurrences of `sep`, the last element being the unsplit rest. -/
def genSplitLoop (sep : List Char) : Nat → List Char → List (List Char)
  | 0, s => [s]
  | k + 1, s =>
    match Index s sep with
    | none => [s]
    | some m => s.take m :: genSplitLoop sep k (s.drop (m + sep.length))

/-- The function `strings.explode`: split into single characters, at most `n`
parts, the last part being the rest (`n` is positive at the only call). -/
def explode (s : List Char) (n : Nat) : List (List Char) :=
  let n := if n > s.length then s.length else n
  if n = 0 then []
  else ((s.take (n - 1)).map fun c => [c]) ++ [s.drop (n - 1)]

/-- The function `strings.SplitN(s, sep, n)` for `n ≥ 0` (`strings.genSplit`
with `sepSave = 0`): `n = 0` gives no parts, an empty separator explodes the
string, and otherwise `n` is capped by `len(s) + 1` and `n - 1` cuts are made. -/
def SplitN (s sep : String) (n : Nat) : List String :=
  if n = 0 then []
  else if sep = "" then (explode s.data n).map String.mk
  else
    let n := if n > s.utf8ByteSize + 1 then s.utf8ByteSize + 1 else n
    (genSplitLoop sep.data (n - 1) s.data).map String.mk

/-- The call `fmt.Sprintf("%s-%s", a, b)` on two strings. -/
def Sprintf_s_dash_s (a b : String) : String :=
  a ++ "-" ++ b

/-! ## Errors -/

/-- A Go `error` value, identified by the text its `Error()` method returns;
`nil` is `Option.none` at the places an error may be absent. -/
structure GoError where
  msg : String
deriving DecidableEq, Repr

/-- The call `fmt.Errorf(format, ...)` without a `%w` verb: a fresh error whose
text is the formatted string (given here already formatted). -/
def Errorf (formatted : String) : GoError :=
  ⟨formatted⟩

/-! ## The composite ID codec -/

/-- The function `resourceAwsSnapshotCreateVolumePermissionParseID`: the Go
result triple `(snapshotID, accountID, err)`. -/
def resourceAwsSnapshotCreateVolumePermissionParseID (id : String) :
    String × String × Option GoError :=
  let idParts := SplitN id "-" 3
  if idParts.length ≠ 3 ∨ idParts.getD 0 "" ≠ "snap" ∨ idParts.getD 1 "" = ""
      ∨ idParts.getD 2 "" = "" then
    ("", "", some (Errorf
      ("unexpected format of ID (" ++ id ++ "), expected SNAPSHOT_ID-ACCOUNT_ID")))
  else (Sprintf_s_dash_s (idParts.getD 0 "") (idParts.getD 1 ""), idParts.getD 2 "", none)

/-! ## AWS SDK data model

Only the fields the resource reads or writes are kept. A Go `*string` is an
`Option String`; a nil slice and an empty slice are both the empty list, as
`range` and `len` do not tell them apart. A slice of pointers to structures
holds no nil element, as in every response the SDK decodes. -/

/-- The helper `aws.String`: a pointer to the given string. -/
def awsString (v : String) : Option String :=
  some v

/-- The helper `aws.StringValue`: the pointed-to string, or `""` for nil. -/
def awsStringValue : Option String → String
  | some v => v
  | none => ""

/-- The helper `aws.StringSlice`: a slice of pointers to the given strings. -/
def awsStringSlice (vs : List String) : List (Option String) :=
  vs.map awsString

/-- The type `ec2.CreateVolumePermission`. -/
structure CreateVolumePermission where
  Group : Option String
  UserId : Option String
deriving DecidableEq, Repr

/-- The type `ec2.CreateVolumePermissionModifications`. -/
structure CreateVolumePermissionModifications where
  Add : List CreateVolumePermission
  Remove : List CreateVolumePermission
deriving DecidableEq, Repr

/-- The type `ec2.DescribeSnapshotAttributeInput`. -/
structure DescribeSnapshotAttributeInput where
  Attribute : Option String
  SnapshotId : Option String
deriving DecidableEq, Repr

/-- The type `ec2.DescribeSnapshotAttributeOutput`. -/
structure DescribeSnapshotAttributeOutput where
  CreateVolumePermissions : List CreateVolumePermission
  SnapshotId : Option String
deriving DecidableEq, Repr

/-- The type `ec2.ModifySnapshotAttributeInput`. -/
structure ModifySnapshotAttributeInput where
  Attribute : Option String
  CreateVolumePermission : Option CreateVolumePermissionModifications
  SnapshotId : Option String
deriving DecidableEq, Repr

/-- The type `ec2.DescribeSnapshotsInput`. -/
structure DescribeSnapshotsInput where
  SnapshotIds : List (Option String)
deriving DecidableEq, Repr

/-- The type `ec2.Snapshot`. -/
structure Snapshot where
  OwnerId : Option String
  SnapshotId : Option String
deriving DecidableEq, Repr

/-- The type `ec2.DescribeSnapshotsOutput`. -/
structure DescribeSnapshotsOutput where
  Snapshots : List Snapshot
deriving DecidableEq, Repr

/-- The EC2 client `*ec2.EC2` as a transition system over the state `σ` of the
remote service: each API call takes the request and the current state, and gives
the response or the error together with the next state. -/
structure EC2 (σ : Type) where
  DescribeSnapshots : DescribeSnapshotsInput → σ → Except GoError DescribeSnapshotsOutput × σ
  ModifySnapshotAttribute : ModifySnapshotAttributeInput → σ → Except GoError Unit × σ
  DescribeSnapshotAttribute :
    DescribeSnapshotAttributeInput → σ → Except GoError DescribeSnapshotAttributeOutput × σ

/-- One API call issued through the client, with its request. -/
inductive Call where
  | DescribeSnapshots (input : DescribeSnapshotsInput)
  | ModifySnapshotAttribute (input : ModifySnapshotAttributeInput)
  | DescribeSnapshotAttribute (input : DescribeSnapshotAttributeInput)
deriving DecidableEq, Repr

/-- The remote state together with the calls issued so far, oldest first. -/
structure Session (σ : Type) where
  world : σ
  calls : List Call

/-- The call `conn.DescribeSnapshots(input)`, recorded in the session. -/
def connDescribeSnapshots {σ : Type} (conn : EC2 σ) (input : DescribeSnapshotsInput)
    (s : Session σ) : Except GoError DescribeSnapshotsOutput × Session σ :=
  let r := conn.DescribeSnapshots input s.world
  (r.1, ⟨r.2, s.calls ++ [Call.DescribeSnapshots input]⟩)

/-- The call `conn.ModifySnapshotAttribute(input)`, recorded in the session. -/
def connModifySnapshotAttribute {σ : Type} (conn : EC2 σ) (input : ModifySnapshotAttributeInput)
    (s : Session σ) : Except GoError Unit × Session σ :=
  let r := conn.ModifySnapshotAttribute input s.world
  (r.1, ⟨r.2, s.calls ++ [Call.ModifySnapshotAttribute input]⟩)

/-- The call `conn.DescribeSnapshotAttribute(input)`, recorded in the session. -/
def connDescribeSnapshotAttribute {σ : Type} (conn : EC2 σ)
    (input : DescribeSnapshotAttributeInput) (s : Session σ) :
    Except GoError DescribeSnapshotAttributeOutput × Session σ :=
  let r := conn.DescribeSnapshotAttribute input s.world
  (r.1, ⟨r.2, s.calls ++ [Call.DescribeSnapshotAttribute input]⟩)

/-- The resource data `*schema.ResourceData`: the stored ID and the two
required string attributes of the schema. -/
structure ResourceData where
  Id : String
  snapshot_id : String
  account_id : String
deriving DecidableEq, Repr

/-- The method `d.SetId`. -/
def ResourceData.SetId (d : ResourceData) (v : String) : ResourceData :=
  { d with Id := v }

/-- The constant `time.Second`, in nanoseconds. -/
def Second : Nat := 1000000000

/-- The constant `time.Minute`, in nanoseconds. -/
def Minute : Nat := 60 * Second

/-! ## The poll engine -/

/-- The result triple `(interface{}, string, error)` of one refresh: the raw
payload (nil as `none`), the state tag and the error. -/
structure RefreshResult (α : Type) where
  payload : Option α
  state : String
  err : Option GoError
deriving DecidableEq, Repr

/-- The type `resource.StateRefreshFunc`: a closure that performs one read; the
state `S` it reads and advances is passed explicitly. -/
abbrev StateRefreshFunc (S α : Type) : Type :=
  S → RefreshResult α × S

/-- The type `resource.StateChangeConf` (the PollSpec), durations in
nanoseconds. -/
structure StateChangeConf (S α : Type) where
  Pending : List String
  Target : List String
  Refresh : StateRefreshFunc S α
  Timeout : Nat
  Delay : Nat
  MinTimeout : Nat

/-- Modelled from the spec: the PollOutcome of section 3 and the failure kinds
of section 7 (the engine `StateChangeConf.WaitForState` belongs to the plugin
SDK and is not part of the source files). -/
inductive PollOutcome (α : Type) where
  | Success (payload : Option α)
  | RefreshError (cause : GoError)
  | UnexpectedState (state : String) (payload : Option α)
  | Timeout (lastState : String)
deriving DecidableEq, Repr

/-- Modelled from the spec: what one run of the engine leaves behind, namely
its outcome, the number of reads it issued and the state after the last read. -/
structure PollRun (S α : Type) where
  outcome : PollOutcome α
  reads : Nat
  final : S

/-- Modelled from the spec: the loop of the Poll-Until-Converged Engine of
section 4.3 (`StateChangeConf.WaitForState`, missing from the source files).
Each turn calls the Refresh Function once; an error aborts with `RefreshError`,
a state in the target set returns success with the payload, a state in the
pending set continues, any other state aborts with `UnexpectedState`. Time is
not modelled: `budget` is the number of reads that fit before the deadline, and
when it is used up the run ends in `Timeout` with the last observed state. -/
def pollLoop {S α : Type} (conf : StateChangeConf S α) :
    Nat → Nat → String → S → PollRun S α
  | 0, done, last, s => ⟨PollOutcome.Timeout last, done, s⟩
  | budget + 1, done, _, s =>
    let r := conf.Refresh s
    match r.1.err with
    | some e => ⟨PollOutcome.RefreshError e, done + 1, r.2⟩
    | none =>
      if r.1.state ∈ conf.Target then ⟨PollOutcome.Success r.1.payload, done + 1, r.2⟩
      else if r.1.state ∈ conf.Pending then pollLoop conf budget (done + 1) r.1.state r.2
      else ⟨PollOutcome.UnexpectedState r.1.state r.1.payload, done + 1, r.2⟩

/-- Modelled from the spec: the operation `AwaitConvergence` of section 6
(`StateChangeConf.WaitForState`), run with a budget of reads from the state
`s`. -/
def WaitForState {S α : Type} (conf : StateChangeConf S α) (budget : Nat) (s : S) :
    PollRun S α :=
  pollLoop conf budget 0 "" s

/-- Modelled from the spec: the error value a poll run returns to its caller,
nil on success. A refresh error is propagated verbatim (section 7); the spec
fixes no wording for the other two failures, so their text names the failure
kind and the state it carries. -/
def PollOutcome.error {α : Type} : PollOutcome α → Option GoError
  | PollOutcome.Success _ => none
  | PollOutcome.RefreshError cause => some cause
  | PollOutcome.UnexpectedState state _ => some (Errorf ("unexpected state: " ++ state))
  | PollOutcome.Timeout lastState => some (Errorf ("timeout, last state: " ++ lastState))

/-- The first `n` results a refresh function yields from the state `s`. -/
def refreshResults {S α : Type} (f : StateRefreshFunc S α) : Nat → S → List (RefreshResult α)
  | 0, _ => []
  | n + 1, s => (f s).1 :: refreshResults f n (f s).2

/-- The state after `n` calls of a refresh function from the state `s`. -/
def refreshState {S α : Type} (f : StateRefreshFunc S α) : Nat → S → S
  | 0, s => s
  | n + 1, s => refreshState f n (f s).2

/-- A result is terminal for a PollSpec when it is an error, a state in the
target set, or a state in neither set. -/
def terminal {S α : Type} (conf : StateChangeConf S α) (r : RefreshResult α) : Prop :=
  r.err ≠ none ∨ r.state ∈ conf.Target ∨ (r.state ∉ conf.Pending ∧ r.state ∉ conf.Target)

instance {S α : Type} (conf : StateChangeConf S α) (r : RefreshResult α) :
    Decidable (terminal conf r) :=
  inferInstanceAs (Decidable (_ ∨ _))

/-- The outcome the spec assigns to a terminal result: refresh error, success
with the payload, or unexpected state. -/
def terminalOutcome {S α : Type} (conf : StateChangeConf S α) (r : RefreshResult α) :
    PollOutcome α :=
  match r.err with
  | some e => PollOutcome.RefreshError e
  | none =>
    if r.state ∈ conf.Target then PollOutcome.Success r.payload
    else PollOutcome.UnexpectedState r.state r.payload

/-! ## The refresh function and the resource handlers

The SDK constant `ec2.SnapshotAttributeNameCreateVolumePermission` is declared
outside the source files; the functions that use it take it as their first
argument `attrName`. -/

/-- The loop and the final return of the closure built by
`resourceAwsSnapshotCreateVolumePermissionStateRefreshFunc`, over the entries
still to visit. -/
def refreshRange (attrs : DescribeSnapshotAttributeOutput) (account_id : String) :
    List CreateVolumePermission → RefreshResult DescribeSnapshotAttributeOutput
  | [] => ⟨some attrs, "denied", none⟩
  | vp :: rest =>
    if awsStringValue vp.UserId = account_id then ⟨some attrs, "granted", none⟩
    else refreshRange attrs account_id rest

/-- The function `resourceAwsSnapshotCreateVolumePermissionStateRefreshFunc`:
the closure it returns, as a function of the session. -/
def resourceAwsSnapshotCreateVolumePermissionStateRefreshFunc {σ : Type} (attrName : String)
    (conn : EC2 σ) (snapshot_id account_id : String) :
    StateRefreshFunc (Session σ) DescribeSnapshotAttributeOutput :=
  fun s =>
    let r := connDescribeSnapshotAttribute conn
      { SnapshotId := awsString snapshot_id, Attribute := awsString attrName } s
    match r.1 with
    | Except.error err =>
      (⟨none, "", some (Errorf
        ("Error refreshing snapshot " ++ attrName ++ " state: " ++ err.msg))⟩, r.2)
    | Except.ok attrs => (refreshRange attrs account_id attrs.CreateVolumePermissions, r.2)

/-- The function `hasCreateVolumePermission`. -/
def hasCreateVolumePermission {σ : Type} (attrName : String) (conn : EC2 σ)
    (snapshot_id account_id : String) (s : Session σ) :
    (Bool × Option GoError) × Session σ :=
  let r := resourceAwsSnapshotCreateVolumePermissionStateRefreshFunc attrName conn
    snapshot_id account_id s
  match r.1.err with
  | some err => ((false, some err), r.2)
  | none =>
    if r.1.state = "granted" then ((true, none), r.2)
    else ((false, none), r.2)

/-- The function `resourceAwsSnapshotCreateVolumePermissionExists`. -/
def resourceAwsSnapshotCreateVolumePermissionExists {σ : Type} (attrName : String)
    (conn : EC2 σ) (d : ResourceData) (s : Session σ) :
    (Bool × Option GoError) × Session σ :=
  let parsed := resourceAwsSnapshotCreateVolumePermissionParseID d.Id
  match parsed.2.2 with
  | some err => ((false, some err), s)
  | none => hasCreateVolumePermission attrName conn parsed.1 parsed.2.1 s

/-- The function `isAccountSnapshotOwner`; `none` is the run-time panic of
dereferencing a nil `OwnerId`. -/
def isAccountSnapshotOwner {σ : Type} (conn : EC2 σ) (snapshot_id account_id : String)
    (s : Session σ) : Option ((Bool × Option GoError) × Session σ) :=
  let r := connDescribeSnapshots conn { SnapshotIds := awsStringSlice [snapshot_id] } s
  match r.1 with
  | Except.error err =>
    some ((false, some (Errorf
      ("Error describing snapshot " ++ snapshot_id ++ ": " ++ err.msg))), r.2)
  | Except.ok output =>
    match output.Snapshots with
    | [snap] =>
      match snap.OwnerId with
      | some owner => some ((decide (owner = account_id), none), r.2)
      | none => none
    | snaps =>
      some ((false, some (Errorf
        ("Error locating snapshot " ++ snapshot_id ++ ": found " ++ toString snaps.length
          ++ " snapshots, expected 1"))), r.2)

/-- The `stateConf` literal of `resourceAwsSnapshotCreateVolumePermissionCreate`
(the grant PollSpec). -/
def stateConfCreate {σ : Type} (attrName : String) (conn : EC2 σ)
    (snapshot_id account_id : String) :
    StateChangeConf (Session σ) DescribeSnapshotAttributeOutput :=
  { Pending := ["denied"]
    Target := ["granted"]
    Refresh := resourceAwsSnapshotCreateVolumePermissionStateRefreshFunc attrName conn
      snapshot_id account_id
    Timeout := 20 * Minute
    Delay := 10 * Second
    MinTimeout := 10 * Second }

/-- The `stateConf` literal of `resourceAwsSnapshotCreateVolumePermissionDelete`
(the revoke PollSpec). -/
def stateConfDelete {σ : Type} (attrName : String) (conn : EC2 σ)
    (snapshotID accountID : String) :
    StateChangeConf (Session σ) DescribeSnapshotAttributeOutput :=
  { Pending := ["granted"]
    Target := ["denied"]
    Refresh := resourceAwsSnapshotCreateVolumePermissionStateRefreshFunc attrName conn
      snapshotID accountID
    Timeout := 5 * Minute
    Delay := 10 * Second
    MinTimeout := 10 * Second }

/-- The function `resourceAwsSnapshotCreateVolumePermissionCreate`: the returned
error, the resource data and the session it leaves; `none` is a run-time panic.
The argument `budget` is the number of reads the poll can make before its
deadline. -/
def resourceAwsSnapshotCreateVolumePermissionCreate {σ : Type} (attrName : String)
    (conn : EC2 σ) (budget : Nat) (d : ResourceData) (s : Session σ) :
    Option (Option GoError × ResourceData × Session σ) :=
  let snapshot_id := d.snapshot_id
  let account_id := d.account_id
  match isAccountSnapshotOwner conn snapshot_id account_id s with
  | none => none
  | some ((_, some err), s1) =>
    some (some (Errorf ("Error adding snapshot " ++ attrName ++ ": " ++ err.msg)), d, s1)
  | some ((accountIsOwner, none), s1) =>
    if accountIsOwner then
      some (some (Errorf ("Error adding snapshot " ++ attrName ++ ": specified account "
        ++ account_id ++ " is the snapshot owner")), d, s1)
    else
      let m := connModifySnapshotAttribute conn
        { SnapshotId := awsString snapshot_id
          Attribute := awsString attrName
          CreateVolumePermission := some
            { Add := [{ Group := none, UserId := awsString account_id }], Remove := [] } } s1
      match m.1 with
      | Except.error err =>
        some (some (Errorf ("Error adding snapshot " ++ attrName ++ ": " ++ err.msg)), d, m.2)
      | Except.ok _ =>
        let d1 := d.SetId (Sprintf_s_dash_s snapshot_id account_id)
        let stateConf := stateConfCreate attrName conn snapshot_id account_id
        let run := WaitForState stateConf budget m.2
        match run.outcome.error with
        | some err =>
          some (some (Errorf ("Error waiting for snapshot " ++ attrName ++ " (" ++ d1.Id
            ++ ") to be added: " ++ err.msg)), d1, run.final)
        | none => some (none, d1, run.final)

/-- The function `resourceAwsSnapshotCreateVolumePermissionRead`. -/
def resourceAwsSnapshotCreateVolumePermissionRead (_d : ResourceData) : Option GoError :=
  none

/-- The function `resourceAwsSnapshotCreateVolumePermissionDelete`: the returned
error and the session it leaves. The argument `budget` is the number of reads
the poll can make before its deadline. -/
def resourceAwsSnapshotCreateVolumePermissionDelete {σ : Type} (attrName : String)
    (conn : EC2 σ) (budget : Nat) (d : ResourceData) (s : Session σ) :
    Option GoError × Session σ :=
  let parsed := resourceAwsSnapshotCreateVolumePermissionParseID d.Id
  match parsed.2.2 with
  | some err => (some err, s)
  | none =>
    let snapshotID := parsed.1
    let accountID := parsed.2.1
    let m := connModifySnapshotAttribute conn
      { SnapshotId := awsString snapshotID
        Attribute := awsString attrName
        CreateVolumePermission := some
          { Add := [], Remove := [{ Group := none, UserId := awsString accountID }] } } s
    match m.1 with
    | Except.error err =>
      (some (Errorf ("Error removing snapshot " ++ attrName ++ ": " ++ err.msg)), m.2)
    | Except.ok _ =>
      let stateConf := stateConfDelete attrName conn snapshotID accountID
      let run := WaitForState stateConf budget m.2
      match run.outcome.error with
      | some err =>
        (some (Errorf ("Error waiting for snapshot " ++ attrName ++ " (" ++ d.Id
          ++ ") to be removed: " ++ err.msg)), run.final)
      | none => (none, run.final)

/-! ## Clients and refresh functions for concrete runs -/

/-- A refresh function that replays a list of results in order, and answers
`dflt` once the list is used up. -/
def replay {α : Type} (dflt : RefreshResult α) :
    StateRefreshFunc (List (RefreshResult α)) α
  | [] => (dflt, [])
  | r :: rs => (r, rs)

/-- A PollSpec over replayed results of natural-number payloads, with the
given pending and target sets and the timing of the grant PollSpec. -/
def replayConf (pending target : List String) :
    StateChangeConf (List (RefreshResult Nat)) Nat :=
  { Pending := pending
    Target := target
    Refresh := replay ⟨none, "", none⟩
    Timeout := 20 * Minute
    Delay := 10 * Second
    MinTimeout := 10 * Second }

/-- A client over a one-point remote state whose `DescribeSnapshotAttribute`
always answers `attr`, whose `DescribeSnapshots` finds no snapshot and whose
`ModifySnapshotAttribute` succeeds. -/
def constConn (attr : Except GoError DescribeSnapshotAttributeOutput) : EC2 Unit :=
  { DescribeSnapshots := fun _ w => (Except.ok ⟨[]⟩, w)
    ModifySnapshotAttribute := fun _ w => (Except.ok (), w)
    DescribeSnapshotAttribute := fun _ w => (attr, w) }

/-- A client over a one-point remote state whose `DescribeSnapshots` always
finds the snapshots `snaps`, whose `ModifySnapshotAttribute` succeeds and whose
`DescribeSnapshotAttribute` always answers `attr`. -/
def snapshotConn (snaps : List Snapshot)
    (attr : Except GoError DescribeSnapshotAttributeOutput) : EC2 Unit :=
  { DescribeSnapshots := fun _ w => (Except.ok ⟨snaps⟩, w)
    ModifySnapshotAttribute := fun _ w => (Except.ok (), w)
    DescribeSnapshotAttribute := fun _ w => (attr, w) }

/-! ## Lemmas on the split -/

theorem Index_dash_none (a : List Char) (h : '-' ∉ a) : Index a ['-'] = none := by
  induction a with
  | nil => simp [Index]
  | cons c cs ih =>
    simp only [List.mem_cons, not_or] at h
    have hc : c ≠ '-' := fun e => h.1 e.symm
    simp [Index, List.isPrefixOf, hc, h.1, ih h.2]

theorem Index_dash_some (a r : List Char) (h : '-' ∉ a) :
    Index (a ++ '-' :: r) ['-'] = some a.length := by
  induction a with
  | nil => simp [Index, List.isPrefixOf]
  | cons c cs ih =>
    simp only [List.mem_cons, not_or] at h
    have hc : c ≠ '-' := fun e => h.1 e.symm
    simp [Index, List.isPrefixOf, hc, h.1, ih h.2]

/-- Every string either has no dash or is cut at its first dash. -/
theorem first_dash (s : List Char) :
    '-' ∉ s ∨ ∃ a r, s = a ++ '-' :: r ∧ '-' ∉ a := by
  induction s with
  | nil => simp
  | cons c cs ih =>
    by_cases hc : c = '-'
    · exact Or.inr ⟨[], cs, by simp [hc], by simp⟩
    · rcases ih with h | ⟨a, r, e, h⟩
      · exact Or.inl (by simp [h, Ne.symm hc])
      · exact Or.inr ⟨c :: a, r, by simp [e], by simp [h, Ne.symm hc]⟩

theorem genSplitLoop_no_dash (k : Nat) (a : List Char) (h : '-' ∉ a) :
    genSplitLoop ['-'] k a = [a] := by
  cases k with
  | zero => rfl
  | succ k => simp [genSplitLoop, Index_dash_none a h]

theorem genSplitLoop_cut (k : Nat) (a r : List Char) (h : '-' ∉ a) :
    genSplitLoop ['-'] (k + 1) (a ++ '-' :: r) = a :: genSplitLoop ['-'] k r := by
  simp [genSplitLoop, Index_dash_some a r h]

theorem genSplitLoop_length_le (sep : List Char) (k : Nat) (s : List Char) :
    (genSplitLoop sep k s).length ≤ k + 1 := by
  induction k generalizing s with
  | zero => simp [genSplitLoop]
  | succ k ih =>
    unfold genSplitLoop
    split
    · simp
    · rename_i m _
      simp only [List.length_cons]
      have := ih (s.drop (m + sep.length))
      omega

theorem length_le_utf8Len (cs : List Char) : cs.length ≤ String.utf8Len cs := by
  induction cs with
  | nil => simp
  | cons c cs ih =>
    have := Char.utf8Size_pos c
    simp only [List.length_cons, String.utf8Len_cons]
    omega

/-- The cap of `genSplit` on the number of parts does not change the result of
splitting at dashes into at most three parts. -/
theorem SplitN_dash_three (id : String) :
    SplitN id "-" 3 = (genSplitLoop ['-'] 2 id.data).map String.mk := by
  have hsep : ("-" : String) ≠ "" := by decide
  have hd : ("-" : String).data = ['-'] := rfl
  simp only [SplitN, hsep, if_false, hd]
  simp only [show (3 : Nat) ≠ 0 by decide, if_false]
  split
  · rename_i hlt
    obtain ⟨cs⟩ := id
    simp only [String.utf8ByteSize_mk] at hlt ⊢
    have hlen := length_le_utf8Len cs
    match cs, hlt, hlen with
    | [], _, _ => simp [genSplitLoop, Index]
    | [c], hlt, _ =>
      have hp := Char.utf8Size_pos c
      simp only [String.utf8Len_cons, String.utf8Len_nil] at hlt ⊢
      have h1 : c.utf8Size = 1 := by omega
      simp only [h1]
      by_cases hc : c = '-'
      · subst hc
        simp [genSplitLoop, Index, List.isPrefixOf]
      · have : '-' ∉ [c] := by simp [Ne.symm hc]
        simp [genSplitLoop_no_dash _ _ this]
    | _ :: _ :: _, hlt, hlen =>
      simp only [List.length_cons] at hlen
      omega
  · rfl

theorem parseID_no_dash (id : String) (h : '-' ∉ id.data) :
    resourceAwsSnapshotCreateVolumePermissionParseID id = ("", "", some (Errorf
      ("unexpected format of ID (" ++ id ++ "), expected SNAPSHOT_ID-ACCOUNT_ID"))) := by
  simp [resourceAwsSnapshotCreateVolumePermissionParseID, SplitN_dash_three,
    genSplitLoop_no_dash _ _ h]

theorem parseID_one_dash (id : String) (a r : List Char) (e : id.data = a ++ '-' :: r)
    (ha : '-' ∉ a) (hr : '-' ∉ r) :
    resourceAwsSnapshotCreateVolumePermissionParseID id = ("", "", some (Errorf
      ("unexpected format of ID (" ++ id ++ "), expected SNAPSHOT_ID-ACCOUNT_ID"))) := by
  simp [resourceAwsSnapshotCreateVolumePermissionParseID, SplitN_dash_three, e,
    genSplitLoop_cut _ _ _ ha, genSplitLoop_no_dash _ _ hr]

theorem parseID_two_dash (id : String) (a b c : List Char)
    (e : id.data = a ++ '-' :: (b ++ '-' :: c)) (ha : '-' ∉ a) (hb : '-' ∉ b) :
    resourceAwsSnapshotCreateVolumePermissionParseID id =
      if String.mk a ≠ "snap" ∨ String.mk b = "" ∨ String.mk c = "" then
        ("", "", some (Errorf
          ("unexpected format of ID (" ++ id ++ "), expected SNAPSHOT_ID-ACCOUNT_ID")))
      else (Sprintf_s_dash_s (String.mk a) (String.mk b), String.mk c, none) := by
  have hs : genSplitLoop ['-'] 2 id.data = [a, b, c] := by
    rw [e, genSplitLoop_cut _ _ _ ha, genSplitLoop_cut _ _ _ hb]
    rfl
  simp [resourceAwsSnapshotCreateVolumePermissionParseID, SplitN_dash_three, hs]

/-- A parse either fails with the format error, or the ID is cut at its first
two dashes into a first segment `snap`, a non-empty second segment and a
non-empty rest, which are returned. -/
theorem parseID_cases (id : String) :
    resourceAwsSnapshotCreateVolumePermissionParseID id = ("", "", some (Errorf
      ("unexpected format of ID (" ++ id ++ "), expected SNAPSHOT_ID-ACCOUNT_ID")))
    ∨ ∃ b c : List Char, id.data = "snap".data ++ '-' :: (b ++ '-' :: c) ∧ '-' ∉ b ∧ b ≠ []
        ∧ c ≠ [] ∧ resourceAwsSnapshotCreateVolumePermissionParseID id =
          (Sprintf_s_dash_s "snap" (String.mk b), String.mk c, none) := by
  rcases first_dash id.data with h | ⟨a, r, e, ha⟩
  · exact Or.inl (parseID_no_dash id h)
  · rcases first_dash r with hr | ⟨b, c, er, hb⟩
    · exact Or.inl (parseID_one_dash id a r e ha hr)
    · subst er
      have h2 := parseID_two_dash id a b c e ha hb
      by_cases hc : String.mk a ≠ "snap" ∨ String.mk b = "" ∨ String.mk c = ""
      · rw [if_pos hc] at h2
        exact Or.inl h2
      · rw [if_neg hc] at h2
        simp only [not_or, not_not] at hc
        obtain ⟨h1, h3, h4⟩ := hc
        have ha' : a = "snap".data := congrArg String.data h1
        subst ha'
        refine Or.inr ⟨b, c, e, hb, ?_, ?_, h2⟩
        · intro hb0
          exact h3 (by rw [hb0])
        · intro hc0
          exact h4 (by rw [hc0])

/-- C1: for a primary identifier `snap-` followed by a non-empty dash-free
string and a non-empty dash-free secondary identifier, the composite ID that
Create stores (`fmt.Sprintf("%s-%s", primary, secondary)`) is decoded by
`resourceAwsSnapshotCreateVolumePermissionParseID` without error to exactly
`(primary, secondary)`. -/
theorem parseID_roundtrip (primary secondary rest : String)
    (hp : primary = "snap-" ++ rest) (hrest : rest ≠ "") (hrd : '-' ∉ rest.data)
    (hs : secondary ≠ "") (_hsd : '-' ∉ secondary.data) :
    resourceAwsSnapshotCreateVolumePermissionParseID (Sprintf_s_dash_s primary secondary)
      = (primary, secondary, none) := by
  subst hp
  have e : (Sprintf_s_dash_s ("snap-" ++ rest) secondary).data
      = "snap".data ++ '-' :: (rest.data ++ '-' :: secondary.data) := by
    simp [Sprintf_s_dash_s, String.data_append]
  have h := parseID_two_dash _ _ _ _ e (by decide) hrd
  have hcond : ¬ (String.mk "snap".data ≠ "snap" ∨ String.mk rest.data = ""
      ∨ String.mk secondary.data = "") := by
    simp only [not_or, not_not]
    exact ⟨trivial, hrest, hs⟩
  rw [if_neg hcond] at h
  rw [h]
  have h1 : Sprintf_s_dash_s (String.mk "snap".data) (String.mk rest.data)
      = "snap-" ++ rest := by
    apply String.ext
    simp [Sprintf_s_dash_s, String.data_append]
  rw [h1]

/-- Witness for C1: the scenario of the specification. -/
theorem parseID_roundtrip_witness :
    Sprintf_s_dash_s "snap-0123456789abcdef0" "111122223333"
        = "snap-0123456789abcdef0-111122223333"
      ∧ resourceAwsSnapshotCreateVolumePermissionParseID
          (Sprintf_s_dash_s "snap-0123456789abcdef0" "111122223333")
        = ("snap-0123456789abcdef0", "111122223333", none) :=
  ⟨by decide, parseID_roundtrip "snap-0123456789abcdef0" "111122223333" "0123456789abcdef0"
    (by decide) (by decide) (by decide) (by decide) (by decide)⟩

theorem two_le_count_dash (a b c : List Char) :
    2 ≤ (a ++ '-' :: (b ++ '-' :: c)).count '-' := by
  simp only [List.count_append, List.count_cons_self]
  omega

/-- C2: `resourceAwsSnapshotCreateVolumePermissionParseID` returns the pair
`("", "")` and an error for every input with fewer than two dashes, or whose
first segment is not exactly `snap`, or whose second segment is empty, or whose
remainder after the second dash is empty. -/
theorem parseID_rejects_malformed (id : String)
    (h : id.data.count '-' < 2
      ∨ (∃ a r : String, id = a ++ "-" ++ r ∧ '-' ∉ a.data ∧ a ≠ "snap")
      ∨ (∃ a r : String, id = a ++ "-" ++ "-" ++ r ∧ '-' ∉ a.data)
      ∨ (∃ a b : String, id = a ++ "-" ++ b ++ "-" ∧ '-' ∉ a.data ∧ '-' ∉ b.data)) :
    resourceAwsSnapshotCreateVolumePermissionParseID id = ("", "", some (Errorf
      ("unexpected format of ID (" ++ id ++ "), expected SNAPSHOT_ID-ACCOUNT_ID"))) := by
  rcases h with h | ⟨a, r, e, ha, hne⟩ | ⟨a, r, e, ha⟩ | ⟨a, b, e, ha, hb⟩
  · rcases first_dash id.data with h0 | ⟨a, r, e, ha⟩
    · exact parseID_no_dash id h0
    · rcases first_dash r with hr | ⟨b, c, er, _⟩
      · exact parseID_one_dash id a r e ha hr
      · subst er
        have := two_le_count_dash a b c
        rw [e] at h
        omega
  · have e1 : id.data = a.data ++ '-' :: r.data := by
      rw [e]
      simp [String.data_append]
    rcases first_dash r.data with hr | ⟨b, c, er, hb⟩
    · exact parseID_one_dash id a.data r.data e1 ha hr
    · rw [er] at e1
      rw [parseID_two_dash id a.data b c e1 ha hb, if_pos (Or.inl hne)]
  · have e1 : id.data = a.data ++ '-' :: ([] ++ '-' :: r.data) := by
      rw [e]
      simp [String.data_append]
    rw [parseID_two_dash id a.data [] r.data e1 ha (by simp),
      if_pos (Or.inr (Or.inl rfl))]
  · have e1 : id.data = a.data ++ '-' :: (b.data ++ '-' :: []) := by
      rw [e]
      simp [String.data_append]
    rw [parseID_two_dash id a.data b.data [] e1 ha hb, if_pos (Or.inr (Or.inr rfl))]

/-- Witness for C2: `snap--` has an empty second segment and
`vol-1234-222222222222` has the first segment `vol`; both are rejected. -/
theorem parseID_rejects_malformed_witness :
    resourceAwsSnapshotCreateVolumePermissionParseID "snap--" = ("", "", some (Errorf
      "unexpected format of ID (snap--), expected SNAPSHOT_ID-ACCOUNT_ID"))
    ∧ resourceAwsSnapshotCreateVolumePermissionParseID "vol-1234-222222222222"
      = ("", "", some (Errorf
        "unexpected format of ID (vol-1234-222222222222), expected SNAPSHOT_ID-ACCOUNT_ID")) :=
  ⟨parseID_rejects_malformed "snap--"
      (Or.inr (Or.inr (Or.inl ⟨"snap", "", by decide, by decide⟩))),
    parseID_rejects_malformed "vol-1234-222222222222"
      (Or.inr (Or.inl ⟨"vol", "1234-222222222222", by decide, by decide, by decide⟩))⟩

/-- C10: when `resourceAwsSnapshotCreateVolumePermissionParseID` succeeds on
`id` with `(snapshotID, accountID)`, then `snapshotID + "-" + accountID` is
`id` again, `snapshotID` is `snap-` followed by a non-empty dash-free string,
and `accountID` is non-empty (it may contain dashes). -/
theorem parseID_encode (id snapshotID accountID : String)
    (h : resourceAwsSnapshotCreateVolumePermissionParseID id = (snapshotID, accountID, none)) :
    snapshotID ++ "-" ++ accountID = id
      ∧ (∃ r : String, snapshotID = "snap-" ++ r ∧ r ≠ "" ∧ '-' ∉ r.data)
      ∧ accountID ≠ "" := by
  rcases parseID_cases id with herr | ⟨b, c, e, hb, hb0, hc0, hok⟩
  · rw [herr] at h
    simp at h
  · rw [hok] at h
    simp only [Prod.mk.injEq, and_true] at h
    obtain ⟨h1, h2⟩ := h
    subst h1 h2
    refine ⟨?_, ⟨String.mk b, ?_, ?_, hb⟩, ?_⟩
    · apply String.ext
      simp [Sprintf_s_dash_s, String.data_append, e]
    · apply String.ext
      simp [Sprintf_s_dash_s, String.data_append]
    · intro hh
      exact hb0 (congrArg String.data hh)
    · intro hh
      exact hc0 (congrArg String.data hh)

/-- Witness for C10: an ID whose account part contains a dash. -/
theorem parseID_encode_witness :
    ("snap-0123" : String) ++ "-" ++ "1111-2222" = "snap-0123-1111-2222"
      ∧ (∃ r : String, "snap-0123" = "snap-" ++ r ∧ r ≠ "" ∧ '-' ∉ r.data)
      ∧ ("1111-2222" : String) ≠ "" :=
  parseID_encode "snap-0123-1111-2222" "snap-0123" "1111-2222" (by decide)

/-- An ID `snap-b-c` with `b` non-empty and dash-free and `c` non-empty is
decoded to `(snap-b, c)`, whatever `c` contains. -/
theorem parseID_accepts (b c : String) (hb0 : b ≠ "") (hb : '-' ∉ b.data) (hc0 : c ≠ "") :
    resourceAwsSnapshotCreateVolumePermissionParseID ("snap-" ++ b ++ "-" ++ c)
      = ("snap-" ++ b, c, none) := by
  have e : ("snap-" ++ b ++ "-" ++ c).data = "snap".data ++ '-' :: (b.data ++ '-' :: c.data) := by
    simp [String.data_append]
  have h := parseID_two_dash _ _ _ _ e (by decide) hb
  have hcond : ¬ (String.mk "snap".data ≠ "snap" ∨ String.mk b.data = ""
      ∨ String.mk c.data = "") := by
    simp only [not_or, not_not]
    exact ⟨trivial, hb0, hc0⟩
  rw [if_neg hcond] at h
  rw [h]
  have h1 : Sprintf_s_dash_s (String.mk "snap".data) (String.mk b.data) = "snap-" ++ b := by
    apply String.ext
    simp [Sprintf_s_dash_s, String.data_append]
  rw [h1]

/-- Counterexample to C3 as stated: a composite with four dash-separated
segments, and one with a trailing dash after a third segment, are both
accepted. -/
theorem parseID_accepts_extra_segments :
    resourceAwsSnapshotCreateVolumePermissionParseID "snap-0123-1111-2222"
        = ("snap-0123", "1111-2222", none)
      ∧ resourceAwsSnapshotCreateVolumePermissionParseID "snap-0123-1111-"
        = ("snap-0123", "1111-", none) := by
  decide

/-- C3, amended: `resourceAwsSnapshotCreateVolumePermissionParseID` fails for
every composite that is not a non-empty dash-free first segment, a dash, a
non-empty dash-free second segment, a dash and a non-empty remainder; the
remainder is not split further, so a composite `snap-b-c` with `b` non-empty
and dash-free and `c` non-empty is accepted as `(snap-b, c)` also when `c`
holds further dashes. -/
theorem parseID_arity (id : String) :
    (¬ (∃ a b c : String, id = a ++ "-" ++ b ++ "-" ++ c ∧ a ≠ "" ∧ '-' ∉ a.data
          ∧ b ≠ "" ∧ '-' ∉ b.data ∧ c ≠ "") →
      resourceAwsSnapshotCreateVolumePermissionParseID id = ("", "", some (Errorf
        ("unexpected format of ID (" ++ id ++ "), expected SNAPSHOT_ID-ACCOUNT_ID"))))
    ∧ (∀ b c : String, id = "snap-" ++ b ++ "-" ++ c → b ≠ "" → '-' ∉ b.data → c ≠ "" →
      resourceAwsSnapshotCreateVolumePermissionParseID id = ("snap-" ++ b, c, none)) := by
  constructor
  · intro hno
    rcases parseID_cases id with herr | ⟨b, c, e, hb, hb0, hc0, _⟩
    · exact herr
    · exfalso
      apply hno
      refine ⟨"snap", String.mk b, String.mk c, ?_, by decide, by decide, ?_, hb, ?_⟩
      · apply String.ext
        simp [String.data_append, e]
      · intro hh
        exact hb0 (congrArg String.data hh)
      · intro hh
        exact hc0 (congrArg String.data hh)
  · intro b c e hb0 hb hc0
    rw [e]
    exact parseID_accepts b c hb0 hb hc0

/-- Witness for C3, amended: `snap-0123` has no third segment and is rejected;
`snap-0123-1111-2222` is accepted with the remainder `1111-2222`. -/
theorem parseID_arity_witness :
    resourceAwsSnapshotCreateVolumePermissionParseID "snap-0123" = ("", "", some (Errorf
        "unexpected format of ID (snap-0123), expected SNAPSHOT_ID-ACCOUNT_ID"))
      ∧ resourceAwsSnapshotCreateVolumePermissionParseID "snap-0123-1111-2222"
        = ("snap-0123", "1111-2222", none) :=
  ⟨(parseID_arity "snap-0123").1 (by
      rintro ⟨a, b, c, e, -⟩
      have h := congrArg (fun s : String => s.data.count '-') e
      have h2 := two_le_count_dash a.data b.data c.data
      have h1 : ("snap-0123" : String).data.count '-' = 1 := by decide
      have h3 : (a ++ "-" ++ b ++ "-" ++ c).data = a.data ++ '-' :: (b.data ++ '-' :: c.data) := by
        simp [String.data_append]
      have h4 : ("snap-0123" : String).data.count '-'
          = (a ++ "-" ++ b ++ "-" ++ c).data.count '-' := h
      rw [h1, h3] at h4
      omega),
    (parseID_arity "snap-0123-1111-2222").2 "0123" "1111-2222" (by decide) (by decide)
      (by decide) (by decide)⟩

/-! ## The poll engine -/

theorem pollLoop_stops {S α : Type} (conf : StateChangeConf S α)
    (pre : List (RefreshResult α)) :
    ∀ (budget done : Nat) (last : String) (s : S) (r : RefreshResult α)
      (post : List (RefreshResult α)),
      refreshResults conf.Refresh budget s = pre ++ r :: post →
      (∀ x ∈ pre, x.err = none ∧ x.state ∈ conf.Pending ∧ x.state ∉ conf.Target) →
      terminal conf r →
      pollLoop conf budget done last s =
        ⟨terminalOutcome conf r, done + pre.length + 1,
          refreshState conf.Refresh (pre.length + 1) s⟩ := by
  induction pre with
  | nil =>
    intro budget done last s r post hseq _ hterm
    cases budget with
    | zero => simp [refreshResults] at hseq
    | succ b =>
      simp only [refreshResults, List.nil_append, List.cons.injEq] at hseq
      obtain ⟨hr, -⟩ := hseq
      subst hr
      simp only [pollLoop, terminalOutcome, List.length_nil, refreshState, Nat.add_zero]
      cases herr : (conf.Refresh s).1.err with
      | some e => rfl
      | none =>
        by_cases ht : (conf.Refresh s).1.state ∈ conf.Target
        · simp [ht]
        · have hp : (conf.Refresh s).1.state ∉ conf.Pending := by
            rcases hterm with h | h | h
            · exact absurd herr h
            · exact absurd h ht
            · exact h.1
          simp [ht, hp]
  | cons x pre ih =>
    intro budget done last s r post hseq hpre hterm
    cases budget with
    | zero => simp [refreshResults] at hseq
    | succ b =>
      simp only [refreshResults, List.cons_append, List.cons.injEq] at hseq
      obtain ⟨hx, hrest⟩ := hseq
      obtain ⟨hxe, hxp, hxt⟩ := hpre x (List.mem_cons_self x pre)
      rw [← hx] at hxe hxp hxt
      have hpre' : ∀ y ∈ pre, y.err = none ∧ y.state ∈ conf.Pending ∧ y.state ∉ conf.Target :=
        fun y hy => hpre y (List.mem_cons_of_mem x hy)
      have hrec := ih b (done + 1) (conf.Refresh s).1.state (conf.Refresh s).2 r post hrest
        hpre' hterm
      simp only [pollLoop, hxe, hxt, hxp, if_false, if_true, hrec, List.length_cons, refreshState]
      congr 1
      omega

/-- C4: the poll engine stops at the first terminal observation. For every
PollSpec and every sequence of refresh results it can read before the deadline,
written `pre ++ r :: post` with every result of `pre` a successful read whose
state is pending (and not target, which is automatic for disjoint sets) and `r`
terminal (an error, a target state, or a state in neither set), the engine
returns the outcome of `r` (refresh error, success with the payload of `r`,
or unexpected state) after exactly `pre.length + 1` reads, leaving the state
reached by that many reads: nothing of `post` is read. -/
theorem waitForState_stops_at_first_terminal {S α : Type} (conf : StateChangeConf S α)
    (budget : Nat) (s : S) (pre post : List (RefreshResult α)) (r : RefreshResult α)
    (hseq : refreshResults conf.Refresh budget s = pre ++ r :: post)
    (hpre : ∀ x ∈ pre, x.err = none ∧ x.state ∈ conf.Pending ∧ x.state ∉ conf.Target)
    (hterm : terminal conf r) :
    WaitForState conf budget s =
      ⟨terminalOutcome conf r, pre.length + 1,
        refreshState conf.Refresh (pre.length + 1) s⟩ := by
  have h := pollLoop_stops conf pre budget 0 "" s r post hseq hpre hterm
  simpa [WaitForState] using h

/-- Witness for C4: pending, pending, target gives success after exactly three
reads and leaves the fourth result unread; a first state in neither set gives
an unexpected-state failure after exactly one read. -/
theorem waitForState_stops_at_first_terminal_witness :
    WaitForState (replayConf ["denied"] ["granted"]) 4
        [⟨some 1, "denied", none⟩, ⟨some 2, "denied", none⟩, ⟨some 3, "granted", none⟩,
          ⟨some 4, "denied", none⟩]
      = ⟨PollOutcome.Success (some 3), 3, [⟨some 4, "denied", none⟩]⟩
    ∧ WaitForState (replayConf ["denied"] ["granted"]) 2
        [⟨some 1, "unknown", none⟩, ⟨some 2, "granted", none⟩]
      = ⟨PollOutcome.UnexpectedState "unknown" (some 1), 1, [⟨some 2, "granted", none⟩]⟩ :=
  ⟨waitForState_stops_at_first_terminal (replayConf ["denied"] ["granted"]) 4
      [⟨some 1, "denied", none⟩, ⟨some 2, "denied", none⟩, ⟨some 3, "granted", none⟩,
        ⟨some 4, "denied", none⟩]
      [⟨some 1, "denied", none⟩, ⟨some 2, "denied", none⟩] [⟨some 4, "denied", none⟩]
      ⟨some 3, "granted", none⟩ rfl (by decide) (by decide),
    waitForState_stops_at_first_terminal (replayConf ["denied"] ["granted"]) 2
      [⟨some 1, "unknown", none⟩, ⟨some 2, "granted", none⟩]
      [] [⟨some 2, "granted", none⟩] ⟨some 1, "unknown", none⟩ rfl (by simp) (by decide)⟩

/-! ## The refresh function -/

theorem refreshRange_payload (attrs : DescribeSnapshotAttributeOutput) (account_id : String)
    (l : List CreateVolumePermission) :
    (refreshRange attrs account_id l).payload = some attrs
      ∧ (refreshRange attrs account_id l).err = none := by
  induction l with
  | nil => exact ⟨rfl, rfl⟩
  | cons vp rest ih =>
    unfold refreshRange
    split
    · exact ⟨rfl, rfl⟩
    · exact ih

theorem refreshRange_state (attrs : DescribeSnapshotAttributeOutput) (account_id : String)
    (l : List CreateVolumePermission) :
    ((∃ vp ∈ l, awsStringValue vp.UserId = account_id) →
        (refreshRange attrs account_id l).state = "granted")
      ∧ ((¬ ∃ vp ∈ l, awsStringValue vp.UserId = account_id) →
        (refreshRange attrs account_id l).state = "denied") := by
  induction l with
  | nil => simp [refreshRange]
  | cons vp rest ih =>
    unfold refreshRange
    by_cases hv : awsStringValue vp.UserId = account_id
    · simp [hv]
    · simp only [hv, if_false, List.mem_cons, exists_eq_or_imp, false_or]
      exact ih

theorem refreshRange_state_mem (attrs : DescribeSnapshotAttributeOutput) (account_id : String)
    (l : List CreateVolumePermission) :
    (refreshRange attrs account_id l).state = "granted"
      ∨ (refreshRange attrs account_id l).state = "denied" := by
  by_cases h : ∃ vp ∈ l, awsStringValue vp.UserId = account_id
  · exact Or.inl ((refreshRange_state attrs account_id l).1 h)
  · exact Or.inr ((refreshRange_state attrs account_id l).2 h)

/-- A successful read through the refresh function is the result of the loop
over the permission list of the response. -/
theorem refresh_ok {σ : Type} (attrName : String) (conn : EC2 σ)
    (snapshot_id account_id : String) (s : Session σ) (attrs : DescribeSnapshotAttributeOutput)
    (h : (conn.DescribeSnapshotAttribute
      { SnapshotId := awsString snapshot_id, Attribute := awsString attrName } s.world).1
        = Except.ok attrs) :
    (resourceAwsSnapshotCreateVolumePermissionStateRefreshFunc attrName conn snapshot_id
      account_id s).1 = refreshRange attrs account_id attrs.CreateVolumePermissions := by
  simp [resourceAwsSnapshotCreateVolumePermissionStateRefreshFunc, connDescribeSnapshotAttribute,
    h]

/-- A failed read through the refresh function gives the wrapped error. -/
theorem refresh_error {σ : Type} (attrName : String) (conn : EC2 σ)
    (snapshot_id account_id : String) (s : Session σ) (e : GoError)
    (h : (conn.DescribeSnapshotAttribute
      { SnapshotId := awsString snapshot_id, Attribute := awsString attrName } s.world).1
        = Except.error e) :
    (resourceAwsSnapshotCreateVolumePermissionStateRefreshFunc attrName conn snapshot_id
      account_id s).1 = ⟨none, "", some (Errorf
        ("Error refreshing snapshot " ++ attrName ++ " state: " ++ e.msg))⟩ := by
  simp [resourceAwsSnapshotCreateVolumePermissionStateRefreshFunc, connDescribeSnapshotAttribute,
    h]

/-- C5: for every successful `DescribeSnapshotAttribute` response `attrs` and
every account id, the refresh function returns a nil error, the response itself
as payload, and the state `granted` if some entry of `CreateVolumePermissions`
has a `UserId` equal to the account id (a nil `UserId` reading as the empty
string), and the state `denied` otherwise, so also for the empty list. -/
theorem refresh_state_mapping {σ : Type} (attrName : String) (conn : EC2 σ)
    (snapshot_id account_id : String) (s : Session σ) (attrs : DescribeSnapshotAttributeOutput)
    (h : (conn.DescribeSnapshotAttribute
      { SnapshotId := awsString snapshot_id, Attribute := awsString attrName } s.world).1
        = Except.ok attrs) :
    (resourceAwsSnapshotCreateVolumePermissionStateRefreshFunc attrName conn snapshot_id
        account_id s).1.err = none
      ∧ (resourceAwsSnapshotCreateVolumePermissionStateRefreshFunc attrName conn snapshot_id
        account_id s).1.payload = some attrs
      ∧ ((∃ vp ∈ attrs.CreateVolumePermissions, awsStringValue vp.UserId = account_id) →
        (resourceAwsSnapshotCreateVolumePermissionStateRefreshFunc attrName conn snapshot_id
          account_id s).1.state = "granted")
      ∧ ((¬ ∃ vp ∈ attrs.CreateVolumePermissions, awsStringValue vp.UserId = account_id) →
        (resourceAwsSnapshotCreateVolumePermissionStateRefreshFunc attrName conn snapshot_id
          account_id s).1.state = "denied")
      ∧ (attrs.CreateVolumePermissions = [] →
        (resourceAwsSnapshotCreateVolumePermissionStateRefreshFunc attrName conn snapshot_id
          account_id s).1.state = "denied")
      ∧ awsStringValue none = "" := by
  rw [refresh_ok attrName conn snapshot_id account_id s attrs h]
  have hp := refreshRange_payload attrs account_id attrs.CreateVolumePermissions
  have hs := refreshRange_state attrs account_id attrs.CreateVolumePermissions
  refine ⟨hp.2, hp.1, hs.1, hs.2, ?_, rfl⟩
  intro hnil
  apply hs.2
  rw [hnil]
  simp

/-- Witness for C5: a response that lists the accounts `999` and `111` reads as
`granted` for the account `111`. -/
theorem refresh_state_mapping_witness :
    (resourceAwsSnapshotCreateVolumePermissionStateRefreshFunc "createVolumePermission"
        (constConn (Except.ok ⟨[⟨none, some "999"⟩, ⟨none, some "111"⟩], some "snap-1"⟩))
        "snap-1" "111" ⟨(), []⟩).1.err = none
      ∧ (resourceAwsSnapshotCreateVolumePermissionStateRefreshFunc "createVolumePermission"
        (constConn (Except.ok ⟨[⟨none, some "999"⟩, ⟨none, some "111"⟩], some "snap-1"⟩))
        "snap-1" "111" ⟨(), []⟩).1.state = "granted" :=
  have h := refresh_state_mapping "createVolumePermission"
    (constConn (Except.ok ⟨[⟨none, some "999"⟩, ⟨none, some "111"⟩], some "snap-1"⟩))
    "snap-1" "111" ⟨(), []⟩ ⟨[⟨none, some "999"⟩, ⟨none, some "111"⟩], some "snap-1"⟩ rfl
  ⟨h.1, h.2.2.1 ⟨⟨none, some "111"⟩, by simp, rfl⟩⟩

/-- Counterexample to C6 as stated: when `DescribeSnapshotAttribute` fails with
the error `boom`, the refresh function returns an error with another text. -/
theorem refresh_error_not_verbatim :
    (resourceAwsSnapshotCreateVolumePermissionStateRefreshFunc "createVolumePermission"
        (constConn (Except.error ⟨"boom"⟩)) "snap-1" "111" ⟨(), []⟩).1.err
      = some ⟨"Error refreshing snapshot createVolumePermission state: boom"⟩
    ∧ (resourceAwsSnapshotCreateVolumePermissionStateRefreshFunc "createVolumePermission"
        (constConn (Except.error ⟨"boom"⟩)) "snap-1" "111" ⟨(), []⟩).1.err
      ≠ some ⟨"boom"⟩ := by
  decide

/-- C6, amended: for every error `e` returned by `DescribeSnapshotAttribute`,
the refresh function returns a nil payload, an empty state and a new error
whose text is `Error refreshing snapshot <attribute name> state: ` followed by
the text of `e`; this error is never `e` itself. -/
theorem refresh_wraps_read_failure {σ : Type} (attrName : String) (conn : EC2 σ)
    (snapshot_id account_id : String) (s : Session σ) (e : GoError)
    (h : (conn.DescribeSnapshotAttribute
      { SnapshotId := awsString snapshot_id, Attribute := awsString attrName } s.world).1
        = Except.error e) :
    (resourceAwsSnapshotCreateVolumePermissionStateRefreshFunc attrName conn snapshot_id
        account_id s).1 = ⟨none, "", some (Errorf
          ("Error refreshing snapshot " ++ attrName ++ " state: " ++ e.msg))⟩
      ∧ Errorf ("Error refreshing snapshot " ++ attrName ++ " state: " ++ e.msg) ≠ e := by
  refine ⟨refresh_error attrName conn snapshot_id account_id s e h, ?_⟩
  intro heq
  have hlen := congrArg (fun x : GoError => x.msg.length) heq
  simp only [Errorf, String.length_append] at hlen
  have : ("Error refreshing snapshot " : String).length = 26 := by decide
  omega

/-- Witness for C6, amended: the failing read `boom`. -/
theorem refresh_wraps_read_failure_witness :
    (resourceAwsSnapshotCreateVolumePermissionStateRefreshFunc "createVolumePermission"
        (constConn (Except.error ⟨"boom"⟩)) "snap-1" "111" ⟨(), []⟩).1
      = ⟨none, "", some (Errorf
          ("Error refreshing snapshot " ++ "createVolumePermission" ++ " state: " ++ "boom"))⟩
      ∧ Errorf ("Error refreshing snapshot " ++ "createVolumePermission" ++ " state: " ++ "boom")
        ≠ ⟨"boom"⟩ :=
  refresh_wraps_read_failure "createVolumePermission" (constConn (Except.error ⟨"boom"⟩))
    "snap-1" "111" ⟨(), []⟩ ⟨"boom"⟩ rfl

/-! ## The two PollSpecs and the handlers -/

/-- C7: the PollSpec built by Create has `Pending = {"denied"}` and
`Target = {"granted"}`, the one built by Delete has `Pending = {"granted"}` and
`Target = {"denied"}`, and in each of them no state tag is both pending and
target. -/
theorem stateConf_sets_disjoint {σ : Type} (attrName : String) (conn : EC2 σ)
    (snapshot_id account_id : String) :
    (stateConfCreate attrName conn snapshot_id account_id).Pending = ["denied"]
      ∧ (stateConfCreate attrName conn snapshot_id account_id).Target = ["granted"]
      ∧ (stateConfDelete attrName conn snapshot_id account_id).Pending = ["granted"]
      ∧ (stateConfDelete attrName conn snapshot_id account_id).Target = ["denied"]
      ∧ (∀ tag : String, ¬ (tag ∈ (stateConfCreate attrName conn snapshot_id account_id).Pending
          ∧ tag ∈ (stateConfCreate attrName conn snapshot_id account_id).Target))
      ∧ (∀ tag : String, ¬ (tag ∈ (stateConfDelete attrName conn snapshot_id account_id).Pending
          ∧ tag ∈ (stateConfDelete attrName conn snapshot_id account_id).Target)) := by
  refine ⟨rfl, rfl, rfl, rfl, ?_, ?_⟩
  · rintro tag ⟨hp, ht⟩
    simp only [stateConfCreate, List.mem_singleton] at hp ht
    rw [hp] at ht
    exact absurd ht (by decide)
  · rintro tag ⟨hp, ht⟩
    simp only [stateConfDelete, List.mem_singleton] at hp ht
    rw [hp] at ht
    exact absurd ht (by decide)

/-- C8: for every resource ID on which the parse fails, Delete returns that
parse error and Exists returns `(false, that parse error)`, and each leaves the
session as it found it: no call is issued and nothing is polled. -/
theorem malformed_id_reported_before_any_call {σ : Type} (attrName : String) (conn : EC2 σ)
    (budget : Nat) (d : ResourceData) (s : Session σ) (err : GoError)
    (h : (resourceAwsSnapshotCreateVolumePermissionParseID d.Id).2.2 = some err) :
    resourceAwsSnapshotCreateVolumePermissionDelete attrName conn budget d s = (some err, s)
      ∧ resourceAwsSnapshotCreateVolumePermissionExists attrName conn d s
        = ((false, some err), s) := by
  simp [resourceAwsSnapshotCreateVolumePermissionDelete,
    resourceAwsSnapshotCreateVolumePermissionExists, h]

/-- Witness for C8: the stored ID `snap--`. -/
theorem malformed_id_reported_before_any_call_witness :
    resourceAwsSnapshotCreateVolumePermissionDelete "createVolumePermission"
        (constConn (Except.ok ⟨[], none⟩)) 3 ⟨"snap--", "snap-1", "111"⟩ ⟨(), []⟩
      = (some ⟨"unexpected format of ID (snap--), expected SNAPSHOT_ID-ACCOUNT_ID"⟩, ⟨(), []⟩)
    ∧ resourceAwsSnapshotCreateVolumePermissionExists "createVolumePermission"
        (constConn (Except.ok ⟨[], none⟩)) ⟨"snap--", "snap-1", "111"⟩ ⟨(), []⟩
      = ((false, some ⟨"unexpected format of ID (snap--), expected SNAPSHOT_ID-ACCOUNT_ID"⟩),
          ⟨(), []⟩) :=
  malformed_id_reported_before_any_call "createVolumePermission"
    (constConn (Except.ok ⟨[], none⟩)) 3 ⟨"snap--", "snap-1", "111"⟩ ⟨(), []⟩
    ⟨"unexpected format of ID (snap--), expected SNAPSHOT_ID-ACCOUNT_ID"⟩ (by decide)

theorem refresh_state_granted_or_denied {σ : Type} (attrName : String) (conn : EC2 σ)
    (snapshot_id account_id : String) (s : Session σ)
    (h : (resourceAwsSnapshotCreateVolumePermissionStateRefreshFunc attrName conn snapshot_id
      account_id s).1.err = none) :
    (resourceAwsSnapshotCreateVolumePermissionStateRefreshFunc attrName conn snapshot_id
        account_id s).1.state = "granted"
      ∨ (resourceAwsSnapshotCreateVolumePermissionStateRefreshFunc attrName conn snapshot_id
        account_id s).1.state = "denied" := by
  cases hr : (conn.DescribeSnapshotAttribute
      { SnapshotId := awsString snapshot_id, Attribute := awsString attrName } s.world).1 with
  | error e =>
    rw [refresh_error attrName conn snapshot_id account_id s e hr] at h
    simp at h
  | ok attrs =>
    rw [refresh_ok attrName conn snapshot_id account_id s attrs hr]
    exact refreshRange_state_mem attrs account_id attrs.CreateVolumePermissions

theorem pollLoop_expected {S α : Type} (conf : StateChangeConf S α)
    (hin : ∀ s, (conf.Refresh s).1.err = none →
      (conf.Refresh s).1.state ∈ conf.Pending ∨ (conf.Refresh s).1.state ∈ conf.Target) :
    ∀ (budget done : Nat) (last : String) (s : S),
      (∃ p, (pollLoop conf budget done last s).outcome = PollOutcome.Success p)
        ∨ (∃ e, (pollLoop conf budget done last s).outcome = PollOutcome.RefreshError e)
        ∨ (∃ l, (pollLoop conf budget done last s).outcome = PollOutcome.Timeout l) := by
  intro budget
  induction budget with
  | zero =>
    intro done last s
    exact Or.inr (Or.inr ⟨last, rfl⟩)
  | succ b ih =>
    intro done last s
    cases herr : (conf.Refresh s).1.err with
    | some e =>
      refine Or.inr (Or.inl ⟨e, ?_⟩)
      simp [pollLoop, herr]
    | none =>
      by_cases ht : (conf.Refresh s).1.state ∈ conf.Target
      · refine Or.inl ⟨(conf.Refresh s).1.payload, ?_⟩
        simp [pollLoop, herr, ht]
      · have hp : (conf.Refresh s).1.state ∈ conf.Pending := by
          rcases hin s herr with h | h
          · exact h
          · exact absurd h ht
        have hrec := ih (done + 1) (conf.Refresh s).1.state (conf.Refresh s).2
        simpa [pollLoop, herr, ht, hp] using hrec

/-- C9: for every successful read, the state tag returned by the refresh
function belongs to Pending ∪ Target of the grant PollSpec and of the revoke
PollSpec, both unions being {"granted", "denied"}; hence a poll run by Create
or Delete ends in success, in a refresh error or in a timeout, never in an
unexpected state. -/
theorem unexpected_state_unreachable {σ : Type} (attrName : String) (conn : EC2 σ)
    (snapshot_id account_id : String) :
    (∀ tag : String, (tag ∈ (stateConfCreate attrName conn snapshot_id account_id).Pending
          ∨ tag ∈ (stateConfCreate attrName conn snapshot_id account_id).Target)
        ↔ (tag = "granted" ∨ tag = "denied"))
      ∧ (∀ tag : String, (tag ∈ (stateConfDelete attrName conn snapshot_id account_id).Pending
          ∨ tag ∈ (stateConfDelete attrName conn snapshot_id account_id).Target)
        ↔ (tag = "granted" ∨ tag = "denied"))
      ∧ (∀ s : Session σ,
        (resourceAwsSnapshotCreateVolumePermissionStateRefreshFunc attrName conn snapshot_id
          account_id s).1.err = none →
        (resourceAwsSnapshotCreateVolumePermissionStateRefreshFunc attrName conn snapshot_id
            account_id s).1.state = "granted"
          ∨ (resourceAwsSnapshotCreateVolumePermissionStateRefreshFunc attrName conn snapshot_id
            account_id s).1.state = "denied")
      ∧ (∀ (budget : Nat) (s : Session σ),
        (∃ p, (WaitForState (stateConfCreate attrName conn snapshot_id account_id) budget
            s).outcome = PollOutcome.Success p)
          ∨ (∃ e, (WaitForState (stateConfCreate attrName conn snapshot_id account_id) budget
            s).outcome = PollOutcome.RefreshError e)
          ∨ (∃ l, (WaitForState (stateConfCreate attrName conn snapshot_id account_id) budget
            s).outcome = PollOutcome.Timeout l))
      ∧ (∀ (budget : Nat) (s : Session σ),
        (∃ p, (WaitForState (stateConfDelete attrName conn snapshot_id account_id) budget
            s).outcome = PollOutcome.Success p)
          ∨ (∃ e, (WaitForState (stateConfDelete attrName conn snapshot_id account_id) budget
            s).outcome = PollOutcome.RefreshError e)
          ∨ (∃ l, (WaitForState (stateConfDelete attrName conn snapshot_id account_id) budget
            s).outcome = PollOutcome.Timeout l)) := by
  refine ⟨?_, ?_, ?_, ?_, ?_⟩
  · intro tag
    simp only [stateConfCreate, List.mem_singleton]
    exact Or.comm
  · intro tag
    simp only [stateConfDelete, List.mem_singleton]
  · intro s h
    exact refresh_state_granted_or_denied attrName conn snapshot_id account_id s h
  · intro budget s
    apply pollLoop_expected
    intro s1 h1
    have := refresh_state_granted_or_denied attrName conn snapshot_id account_id s1 h1
    simp only [stateConfCreate, List.mem_singleton] at h1 ⊢
    exact this.symm
  · intro budget s
    apply pollLoop_expected
    intro s1 h1
    have := refresh_state_granted_or_denied attrName conn snapshot_id account_id s1 h1
    simp only [stateConfDelete, List.mem_singleton] at h1 ⊢
    exact this

/-- Witness for C9: a read that lists no account is successful and gives the
state `denied`. -/
theorem unexpected_state_unreachable_witness :
    (resourceAwsSnapshotCreateVolumePermissionStateRefreshFunc "createVolumePermission"
        (constConn (Except.ok ⟨[], none⟩)) "snap-1" "111" ⟨(), []⟩).1.state = "granted"
      ∨ (resourceAwsSnapshotCreateVolumePermissionStateRefreshFunc "createVolumePermission"
        (constConn (Except.ok ⟨[], none⟩)) "snap-1" "111" ⟨(), []⟩).1.state = "denied" :=
  (unexpected_state_unreachable "createVolumePermission" (constConn (Except.ok ⟨[], none⟩))
    "snap-1" "111").2.2.1 ⟨(), []⟩ rfl

/-! ## The owner check of Create -/

theorem isAccountSnapshotOwner_error {σ : Type} (conn : EC2 σ) (snapshot_id account_id : String)
    (s : Session σ) (e : GoError)
    (h : (conn.DescribeSnapshots { SnapshotIds := awsStringSlice [snapshot_id] } s.world).1
      = Except.error e) :
    isAccountSnapshotOwner conn snapshot_id account_id s =
      some ((false, some (Errorf
        ("Error describing snapshot " ++ snapshot_id ++ ": " ++ e.msg))),
        ⟨(conn.DescribeSnapshots { SnapshotIds := awsStringSlice [snapshot_id] } s.world).2,
          s.calls ++ [Call.DescribeSnapshots { SnapshotIds := awsStringSlice [snapshot_id] }]⟩) := by
  simp [isAccountSnapshotOwner, connDescribeSnapshots, h]

theorem isAccountSnapshotOwner_count {σ : Type} (conn : EC2 σ)
    (snapshot_id account_id : String) (s : Session σ) (out : DescribeSnapshotsOutput)
    (h : (conn.DescribeSnapshots { SnapshotIds := awsStringSlice [snapshot_id] } s.world).1
      = Except.ok out)
    (hlen : out.Snapshots.length ≠ 1) :
    isAccountSnapshotOwner conn snapshot_id account_id s =
      some ((false, some (Errorf
        ("Error locating snapshot " ++ snapshot_id ++ ": found " ++ toString out.Snapshots.length
          ++ " snapshots, expected 1"))),
        ⟨(conn.DescribeSnapshots { SnapshotIds := awsStringSlice [snapshot_id] } s.world).2,
          s.calls ++ [Call.DescribeSnapshots { SnapshotIds := awsStringSlice [snapshot_id] }]⟩) := by
  obtain ⟨snaps⟩ := out
  match snaps, hlen with
  | [], _ => simp [isAccountSnapshotOwner, connDescribeSnapshots, h]
  | [_], hlen => simp at hlen
  | _ :: _ :: _, _ => simp [isAccountSnapshotOwner, connDescribeSnapshots, h]

theorem isAccountSnapshotOwner_one {σ : Type} (conn : EC2 σ)
    (snapshot_id account_id : String) (s : Session σ) (snap : Snapshot) (owner : String)
    (h : (conn.DescribeSnapshots { SnapshotIds := awsStringSlice [snapshot_id] } s.world).1
      = Except.ok ⟨[snap]⟩)
    (ho : snap.OwnerId = some owner) :
    isAccountSnapshotOwner conn snapshot_id account_id s =
      some ((decide (owner = account_id), none),
        ⟨(conn.DescribeSnapshots { SnapshotIds := awsStringSlice [snapshot_id] } s.world).2,
          s.calls ++ [Call.DescribeSnapshots { SnapshotIds := awsStringSlice [snapshot_id] }]⟩) := by
  simp [isAccountSnapshotOwner, connDescribeSnapshots, h, ho]

theorem isAccountSnapshotOwner_nil_owner {σ : Type} (conn : EC2 σ)
    (snapshot_id account_id : String) (s : Session σ) (snap : Snapshot)
    (h : (conn.DescribeSnapshots { SnapshotIds := awsStringSlice [snapshot_id] } s.world).1
      = Except.ok ⟨[snap]⟩)
    (ho : snap.OwnerId = none) :
    isAccountSnapshotOwner conn snapshot_id account_id s = none := by
  simp [isAccountSnapshotOwner, connDescribeSnapshots, h, ho]

theorem create_owner_check_failed {σ : Type} (attrName : String) (conn : EC2 σ) (budget : Nat)
    (d : ResourceData) (s s1 : Session σ) (b : Bool) (err : GoError)
    (h : isAccountSnapshotOwner conn d.snapshot_id d.account_id s = some ((b, some err), s1)) :
    resourceAwsSnapshotCreateVolumePermissionCreate attrName conn budget d s =
      some (some (Errorf ("Error adding snapshot " ++ attrName ++ ": " ++ err.msg)), d, s1) := by
  simp [resourceAwsSnapshotCreateVolumePermissionCreate, h]

theorem create_account_is_owner {σ : Type} (attrName : String) (conn : EC2 σ) (budget : Nat)
    (d : ResourceData) (s s1 : Session σ)
    (h : isAccountSnapshotOwner conn d.snapshot_id d.account_id s = some ((true, none), s1)) :
    resourceAwsSnapshotCreateVolumePermissionCreate attrName conn budget d s =
      some (some (Errorf ("Error adding snapshot " ++ attrName ++ ": specified account "
        ++ d.account_id ++ " is the snapshot owner")), d, s1) := by
  simp [resourceAwsSnapshotCreateVolumePermissionCreate, h]

theorem create_owner_check_panics {σ : Type} (attrName : String) (conn : EC2 σ) (budget : Nat)
    (d : ResourceData) (s : Session σ)
    (h : isAccountSnapshotOwner conn d.snapshot_id d.account_id s = none) :
    resourceAwsSnapshotCreateVolumePermissionCreate attrName conn budget d s = none := by
  simp [resourceAwsSnapshotCreateVolumePermissionCreate, h]

theorem refresh_calls {σ : Type} (attrName : String) (conn : EC2 σ)
    (snapshot_id account_id : String) (s : Session σ) :
    ∃ extra, (resourceAwsSnapshotCreateVolumePermissionStateRefreshFunc attrName conn snapshot_id
      account_id s).2.calls = s.calls ++ extra := by
  refine ⟨[Call.DescribeSnapshotAttribute
    { SnapshotId := awsString snapshot_id, Attribute := awsString attrName }], ?_⟩
  unfold resourceAwsSnapshotCreateVolumePermissionStateRefreshFunc
  simp only [connDescribeSnapshotAttribute]
  split <;> rfl

theorem pollLoop_calls {σ α : Type} (conf : StateChangeConf (Session σ) α)
    (hext : ∀ s, ∃ extra, (conf.Refresh s).2.calls = s.calls ++ extra) :
    ∀ (budget done : Nat) (last : String) (s : Session σ),
      ∃ extra, (pollLoop conf budget done last s).final.calls = s.calls ++ extra := by
  intro budget
  induction budget with
  | zero =>
    intro done last s
    exact ⟨[], by simp [pollLoop]⟩
  | succ b ih =>
    intro done last s
    obtain ⟨e1, he1⟩ := hext s
    cases herr : (conf.Refresh s).1.err with
    | some e => exact ⟨e1, by simp [pollLoop, herr, he1]⟩
    | none =>
      by_cases ht : (conf.Refresh s).1.state ∈ conf.Target
      · exact ⟨e1, by simp [pollLoop, herr, ht, he1]⟩
      · by_cases hp : (conf.Refresh s).1.state ∈ conf.Pending
        · obtain ⟨e2, he2⟩ := ih (done + 1) (conf.Refresh s).1.state (conf.Refresh s).2
          refine ⟨e1 ++ e2, ?_⟩
          simp only [pollLoop, herr, ht, hp, if_false, if_true, he2, he1, List.append_assoc]
        · exact ⟨e1, by simp [pollLoop, herr, ht, hp, he1]⟩

theorem create_owner_check_passed {σ : Type} (attrName : String) (conn : EC2 σ) (budget : Nat)
    (d : ResourceData) (s s1 : Session σ)
    (h : isAccountSnapshotOwner conn d.snapshot_id d.account_id s = some ((false, none), s1)) :
    ∃ res rest, resourceAwsSnapshotCreateVolumePermissionCreate attrName conn budget d s
        = some res
      ∧ res.2.2.calls = s1.calls ++ Call.ModifySnapshotAttribute
          { SnapshotId := awsString d.snapshot_id
            Attribute := awsString attrName
            CreateVolumePermission := some
              { Add := [{ Group := none, UserId := awsString d.account_id }], Remove := [] } }
          :: rest := by
  simp only [resourceAwsSnapshotCreateVolumePermissionCreate, h, connModifySnapshotAttribute]
  simp only [Bool.false_eq_true, if_false]
  split
  · exact ⟨_, [], rfl, by simp⟩
  · obtain ⟨extra, hextra⟩ := pollLoop_calls
      (stateConfCreate attrName conn d.snapshot_id d.account_id)
      (fun s0 => refresh_calls attrName conn d.snapshot_id d.account_id s0) budget 0 ""
      ⟨(conn.ModifySnapshotAttribute
          { SnapshotId := awsString d.snapshot_id
            Attribute := awsString attrName
            CreateVolumePermission := some
              { Add := [{ Group := none, UserId := awsString d.account_id }], Remove := [] } }
          s1.world).2,
        s1.calls ++ [Call.ModifySnapshotAttribute
          { SnapshotId := awsString d.snapshot_id
            Attribute := awsString attrName
            CreateVolumePermission := some
              { Add := [{ Group := none, UserId := awsString d.account_id }], Remove := [] } }]⟩
    simp only [WaitForState]
    split
    · exact ⟨_, extra, rfl, by simp [hextra]⟩
    · exact ⟨_, extra, rfl, by simp [hextra]⟩

/-- C11: Create mutates only after a passed owner check. If `DescribeSnapshots`
fails, returns a number of snapshots other than one, or reports the account as
the owner, Create returns an error, the resource data is returned as it was
(the ID is not set) and the only call issued is that `DescribeSnapshots`.
Conversely every run of Create that changes the resource data or issues
anything besides that one call saw `DescribeSnapshots` succeed with exactly one
snapshot whose `OwnerId` differs from `account_id`; and after such a check the
next call is the `ModifySnapshotAttribute` that adds the account. -/
theorem create_mutates_only_after_owner_check {σ : Type} (attrName : String) (conn : EC2 σ)
    (budget : Nat) (d : ResourceData) (s : Session σ) :
    (((∃ e, (conn.DescribeSnapshots { SnapshotIds := awsStringSlice [d.snapshot_id] }
            s.world).1 = Except.error e)
        ∨ (∃ out, (conn.DescribeSnapshots { SnapshotIds := awsStringSlice [d.snapshot_id] }
            s.world).1 = Except.ok out ∧ out.Snapshots.length ≠ 1)
        ∨ (∃ snap, (conn.DescribeSnapshots { SnapshotIds := awsStringSlice [d.snapshot_id] }
            s.world).1 = Except.ok ⟨[snap]⟩ ∧ snap.OwnerId = some d.account_id)) →
      ∃ err, resourceAwsSnapshotCreateVolumePermissionCreate attrName conn budget d s =
        some (some err, d,
          ⟨(conn.DescribeSnapshots { SnapshotIds := awsStringSlice [d.snapshot_id] } s.world).2,
            s.calls ++ [Call.DescribeSnapshots
              { SnapshotIds := awsStringSlice [d.snapshot_id] }]⟩))
    ∧ (∀ res, resourceAwsSnapshotCreateVolumePermissionCreate attrName conn budget d s
          = some res →
        (res.2.1 ≠ d ∨ res.2.2.calls ≠ s.calls ++ [Call.DescribeSnapshots
          { SnapshotIds := awsStringSlice [d.snapshot_id] }]) →
        ∃ snap owner, (conn.DescribeSnapshots { SnapshotIds := awsStringSlice [d.snapshot_id] }
            s.world).1 = Except.ok ⟨[snap]⟩ ∧ snap.OwnerId = some owner
          ∧ owner ≠ d.account_id)
    ∧ (∀ snap owner, (conn.DescribeSnapshots { SnapshotIds := awsStringSlice [d.snapshot_id] }
          s.world).1 = Except.ok ⟨[snap]⟩ → snap.OwnerId = some owner → owner ≠ d.account_id →
        ∃ res rest, resourceAwsSnapshotCreateVolumePermissionCreate attrName conn budget d s
            = some res
          ∧ res.2.2.calls = s.calls ++ Call.DescribeSnapshots
              { SnapshotIds := awsStringSlice [d.snapshot_id] }
            :: Call.ModifySnapshotAttribute
              { SnapshotId := awsString d.snapshot_id
                Attribute := awsString attrName
                CreateVolumePermission := some
                  { Add := [{ Group := none, UserId := awsString d.account_id }],
                    Remove := [] } }
            :: rest) := by
  have hfail : ((∃ e, (conn.DescribeSnapshots { SnapshotIds := awsStringSlice [d.snapshot_id] }
            s.world).1 = Except.error e)
        ∨ (∃ out, (conn.DescribeSnapshots { SnapshotIds := awsStringSlice [d.snapshot_id] }
            s.world).1 = Except.ok out ∧ out.Snapshots.length ≠ 1)
        ∨ (∃ snap, (conn.DescribeSnapshots { SnapshotIds := awsStringSlice [d.snapshot_id] }
            s.world).1 = Except.ok ⟨[snap]⟩ ∧ snap.OwnerId = some d.account_id)) →
      ∃ err, resourceAwsSnapshotCreateVolumePermissionCreate attrName conn budget d s =
        some (some err, d,
          ⟨(conn.DescribeSnapshots { SnapshotIds := awsStringSlice [d.snapshot_id] } s.world).2,
            s.calls ++ [Call.DescribeSnapshots
              { SnapshotIds := awsStringSlice [d.snapshot_id] }]⟩) := by
    rintro (⟨e, he⟩ | ⟨out, hout, hlen⟩ | ⟨snap, hsnap, ho⟩)
    · exact ⟨_, create_owner_check_failed attrName conn budget d s _ _ _
        (isAccountSnapshotOwner_error conn d.snapshot_id d.account_id s e he)⟩
    · exact ⟨_, create_owner_check_failed attrName conn budget d s _ _ _
        (isAccountSnapshotOwner_count conn d.snapshot_id d.account_id s out hout hlen)⟩
    · have h1 := isAccountSnapshotOwner_one conn d.snapshot_id d.account_id s snap
        d.account_id hsnap ho
      rw [decide_eq_true rfl] at h1
      exact ⟨_, create_account_is_owner attrName conn budget d s _ h1⟩
  refine ⟨hfail, ?_, ?_⟩
  · intro res hres hchg
    cases hr : (conn.DescribeSnapshots { SnapshotIds := awsStringSlice [d.snapshot_id] }
        s.world).1 with
    | error e =>
      obtain ⟨err, herr⟩ := hfail (Or.inl ⟨e, hr⟩)
      rw [herr] at hres
      cases hres
      simp at hchg
    | ok out =>
      by_cases hlen : out.Snapshots.length = 1
      · obtain ⟨snaps⟩ := out
        match snaps, hlen with
        | [snap], _ =>
          cases ho : snap.OwnerId with
          | none =>
            rw [create_owner_check_panics attrName conn budget d s
              (isAccountSnapshotOwner_nil_owner conn d.snapshot_id d.account_id s snap hr ho)]
              at hres
            cases hres
          | some owner =>
            by_cases hown : owner = d.account_id
            · obtain ⟨err, herr⟩ := hfail (Or.inr (Or.inr ⟨snap, hr, by rw [ho, hown]⟩))
              rw [herr] at hres
              cases hres
              simp at hchg
            · exact ⟨snap, owner, rfl, ho, hown⟩
      · obtain ⟨err, herr⟩ := hfail (Or.inr (Or.inl ⟨out, hr, hlen⟩))
        rw [herr] at hres
        cases hres
        simp at hchg
  · intro snap owner hsnap ho hne
    have h1 := isAccountSnapshotOwner_one conn d.snapshot_id d.account_id s snap owner hsnap ho
    rw [decide_eq_false hne] at h1
    obtain ⟨res, rest, hres, hcalls⟩ := create_owner_check_passed attrName conn budget d s _ h1
    exact ⟨res, rest, hres, by simp [hcalls]⟩

/-- Witness for C11: with no snapshot found Create fails after the single
`DescribeSnapshots` call and leaves the resource data as it was; with one
snapshot owned by another account Create sets the ID, and that run passed the
owner check. -/
theorem create_mutates_only_after_owner_check_witness :
    (∃ err, resourceAwsSnapshotCreateVolumePermissionCreate "createVolumePermission"
        (constConn (Except.ok ⟨[], none⟩)) 3 ⟨"", "snap-1", "111"⟩ ⟨(), []⟩ =
      some (some err, ⟨"", "snap-1", "111"⟩,
        ⟨(), [Call.DescribeSnapshots { SnapshotIds := [some "snap-1"] }]⟩))
    ∧ (∃ snap owner,
        ((snapshotConn [⟨some "999", some "snap-1"⟩]
            (Except.ok ⟨[⟨none, some "111"⟩], some "snap-1"⟩)).DescribeSnapshots
          { SnapshotIds := awsStringSlice ["snap-1"] } ()).1 = Except.ok ⟨[snap]⟩
        ∧ snap.OwnerId = some owner ∧ owner ≠ "111") :=
  ⟨(create_mutates_only_after_owner_check "createVolumePermission"
      (constConn (Except.ok ⟨[], none⟩)) 3 ⟨"", "snap-1", "111"⟩ ⟨(), []⟩).1
      (Or.inr (Or.inl ⟨⟨[]⟩, rfl, by decide⟩)),
    (create_mutates_only_after_owner_check "createVolumePermission"
      (snapshotConn [⟨some "999", some "snap-1"⟩]
        (Except.ok ⟨[⟨none, some "111"⟩], some "snap-1"⟩)) 3 ⟨"", "snap-1", "111"⟩
      ⟨(), []⟩).2.1
      (none, ⟨"snap-1-111", "snap-1", "111"⟩,
        ⟨(), [Call.DescribeSnapshots { SnapshotIds := [some "snap-1"] },
          Call.ModifySnapshotAttribute
            { SnapshotId := some "snap-1"
              Attribute := some "createVolumePermission"
              CreateVolumePermission := some
                { Add := [{ Group := none, UserId := some "111" }], Remove := [] } },
          Call.DescribeSnapshotAttribute
            { SnapshotId := some "snap-1", Attribute := some "createVolumePermission" }]⟩)
      rfl (Or.inl (by decide))⟩

end SnapshotCreateVolumePermission
